import Mathlib

/-!
Shallow embedding of the sony-bravia-cli protocol core (src/main.rs, src/error.rs).

Byte values are modelled as `Nat`; a Rust `u8` sum wraps, which for byte-valued
inputs equals the total sum modulo 256. A Rust `Vec<u8>` is a `List Nat`.
A call to `port.read(buf)` on a zero-initialised buffer of length `n` is
modelled by `readInto n r`, where `r : Except Unit (List Nat)` is the outcome
of that read call on the channel: `Except.error` for an I/O error, and
`Except.ok chunk` for a successful read delivering the bytes `chunk` (a short
read delivers fewer than `n` bytes; the remainder of the buffer keeps its
zero fill, exactly as `Read::read` leaves untouched bytes).
`write_command` performs at most two reads, so it takes the outcomes of the
first and second read calls as parameters `r1` and `r2`.
-/

namespace Bravia

def CONTROL_REQUEST : Nat := 0x8c

def QUERY_REQUEST : Nat := 0x83

def CATEGORY : Nat := 0x00

def POWER_FUNCTION : Nat := 0x00

def VOLUME_CONTROL_FUNCTION : Nat := 0x05

def MUTING_FUNCTION : Nat := 0x06

def RESPONSE_HEADER : Nat := 0x70

def RESPONSE_ANSWER : Nat := 0x00

/-- Embeds `fn checksum(command: &Vec<u8>) -> u8` from src/main.rs:
`let s: u8 = command.iter().sum(); return s % 255;`.
The `u8` sum wraps at 256 (release behaviour), so for byte-valued input the
result is `(sum mod 256) mod 255`. -/
def checksum (command : List Nat) : Nat :=
  (command.sum % 256) % 255

/-- Argument bytes of `power_on` (src/main.rs line 53). -/
def power_on_args : List Nat :=
  [CONTROL_REQUEST, CATEGORY, POWER_FUNCTION, 0x02, 0x01]

/-- Argument bytes of `power_off` (src/main.rs line 58). -/
def power_off_args : List Nat :=
  [CONTROL_REQUEST, CATEGORY, POWER_FUNCTION, 0x02, 0x00]

/-- Argument bytes of `volume_up` (src/main.rs lines 63-70). -/
def volume_up_args : List Nat :=
  [CONTROL_REQUEST, CATEGORY, VOLUME_CONTROL_FUNCTION, 0x03, 0x00, 0x00]

/-- Argument bytes of `volume_down` (src/main.rs lines 75-82). -/
def volume_down_args : List Nat :=
  [CONTROL_REQUEST, CATEGORY, VOLUME_CONTROL_FUNCTION, 0x03, 0x00, 0x01]

/-- Argument bytes of `mute_toggle` (src/main.rs line 87). -/
def mute_toggle_args : List Nat :=
  [CONTROL_REQUEST, CATEGORY, MUTING_FUNCTION, 0x02, 0x00]

/-- Argument bytes of the power query issued by `is_powered_on` (src/main.rs line 92). -/
def query_power_args : List Nat :=
  [QUERY_REQUEST, CATEGORY, POWER_FUNCTION, 0xff, 0xff]

/-- The frame actually transmitted by `write_command`: the command bytes with the
checksum pushed on the end (`vec.push(c)`). -/
def frame (contents : List Nat) : List Nat :=
  contents ++ [checksum contents]

/-- Failure exits of `write_command` in src/main.rs, named after the matching
`CommandFailure` variants declared in src/error.rs. `readResponse` is the
`expect` on the header read, `readResponseData` the `expect` on the data read,
`emptyResponse` the `expect` on `Vec::pop`, and the two header checks and the
checksum check are the `std::process::exit(1)` paths. -/
inductive Err where
  | readResponse : Err
  | unexpectedResponseHeader : Err
  | unexpectedResponseAnswer : Err
  | readResponseData : Err
  | emptyResponse : Err
  | invalidResponseChecksum : Err
  deriving DecidableEq, Repr

/-- Models one `port.read(buf)` call on a zero-initialised buffer of length `n`:
on success the delivered bytes (at most `n` of them) occupy the front of the
buffer and the rest keeps its zero fill. -/
def readInto (n : Nat) (r : Except Unit (List Nat)) : Except Unit (List Nat) :=
  match r with
  | Except.error _ => Except.error ()
  | Except.ok chunk =>
      Except.ok (chunk.take n ++ List.replicate (n - (chunk.take n).length) 0)

/-- Embeds `fn write_command(port, contents: Vec<u8>) -> Vec<u8>` from
src/main.rs lines 134-177. `r1` is the outcome of the 3-byte header read and
`r2` the outcome of the `resp_buf[2]`-byte data read (used only on the query
path). Process-terminating paths (`expect`, `std::process::exit(1)`) are
returned as `Except.error` with the corresponding `Err`. -/
def write_command (contents : List Nat) (r1 r2 : Except Unit (List Nat)) :
    Except Err (List Nat) :=
  let vec := frame contents
  match readInto 3 r1 with
  | Except.error _ => Except.error Err.readResponse
  | Except.ok resp_buf =>
      if resp_buf.getD 0 0 ≠ RESPONSE_HEADER then
        Except.error Err.unexpectedResponseHeader
      else if resp_buf.getD 1 0 ≠ RESPONSE_ANSWER then
        Except.error Err.unexpectedResponseAnswer
      else if vec.getD 0 0 = QUERY_REQUEST then
        match readInto (resp_buf.getD 2 0) r2 with
        | Except.error _ => Except.error Err.readResponseData
        | Except.ok resp_data_buf =>
            match resp_data_buf.getLast? with
            | none => Except.error Err.emptyResponse
            | some resp_checksum =>
                if resp_checksum ≠ checksum (resp_buf ++ resp_data_buf.dropLast) then
                  Except.error Err.invalidResponseChecksum
                else
                  Except.ok resp_data_buf.dropLast
      else
        match resp_buf.getLast? with
        | none => Except.error Err.emptyResponse
        | some resp_checksum =>
            if resp_checksum ≠ checksum resp_buf.dropLast then
              Except.error Err.invalidResponseChecksum
            else
              Except.ok []

/-- Decoding step of `is_powered_on` (src/main.rs line 94): `data[0] == 1`.
Rust `Vec` indexing panics out of bounds, so an empty payload is `none`. -/
def is_powered_on_decode (data : List Nat) : Option Bool :=
  match data with
  | [] => none
  | b :: _ => some (b == 1)

/-- Outcome of a whole top-level action: either a `write_command` failure exit
or the index panic in `is_powered_on` on an empty payload. -/
inductive TErr where
  | cmd : Err → TErr
  | panicIndex : TErr
  deriving DecidableEq, Repr

/-- Embeds `fn is_powered_on` (src/main.rs lines 91-95): run the power query
through `write_command`, then decode `data[0] == 1`. -/
def is_powered_on_model (r1 r2 : Except Unit (List Nat)) : Except TErr Bool :=
  match write_command query_power_args r1 r2 with
  | Except.error e => Except.error (TErr.cmd e)
  | Except.ok data =>
      match is_powered_on_decode data with
      | none => Except.error TErr.panicIndex
      | some b => Except.ok b

/-- Observable events of an execution: bytes written to the serial port, and
lines printed to stdout, in program order. -/
inductive Ev where
  | writeBytes : List Nat → Ev
  | printLine : String → Ev
  deriving DecidableEq, Repr

/-- Embeds `fn power_toggle` (src/main.rs lines 97-105) as an event trace:
query the power state via `is_powered_on`, print the status line, then issue
`power_off` or `power_on`. `r1`/`r2` are the read outcomes for the query
transaction and `r3`/`r4` those for the resolved control transaction. -/
def power_toggle_model (r1 r2 r3 r4 : Except Unit (List Nat)) :
    List Ev × Except TErr Unit :=
  match is_powered_on_model r1 r2 with
  | Except.error e => ([Ev.writeBytes (frame query_power_args)], Except.error e)
  | Except.ok b =>
      if b then
        ([Ev.writeBytes (frame query_power_args),
          Ev.printLine "is on - turning off!",
          Ev.writeBytes (frame power_off_args)],
         match write_command power_off_args r3 r4 with
         | Except.error e => Except.error (TErr.cmd e)
         | Except.ok _ => Except.ok ())
      else
        ([Ev.writeBytes (frame query_power_args),
          Ev.printLine "is off - turning on!",
          Ev.writeBytes (frame power_on_args)],
         match write_command power_on_args r3 r4 with
         | Except.error e => Except.error (TErr.cmd e)
         | Except.ok _ => Except.ok ())

/-- The command tokens dispatched in `main` (src/main.rs lines 194-206). -/
inductive Action where
  | on : Action
  | off : Action
  | power : Action
  | volumeUp : Action
  | volumeDown : Action
  | mute : Action
  | status : Action
  deriving DecidableEq, Repr

/-- Embeds the `match &args[2][..]` dispatch in `main` (src/main.rs lines
194-206); the catch-all arm exits with "invalid action", modelled as `none`. -/
def parse_action (s : String) : Option Action :=
  if s = "on" then some Action.on
  else if s = "off" then some Action.off
  else if s = "power" then some Action.power
  else if s = "volume-up" then some Action.volumeUp
  else if s = "volume-down" then some Action.volumeDown
  else if s = "mute" then some Action.mute
  else if s = "status" then some Action.status
  else none

theorem readInto_ok_length (n : Nat) (r : Except Unit (List Nat)) (l : List Nat)
    (h : readInto n r = Except.ok l) : l.length = n := by
  cases r with
  | error e => simp [readInto] at h
  | ok chunk =>
      simp only [readInto, Except.ok.injEq] at h
      subst h
      simp only [List.length_append, List.length_replicate, List.length_take]
      omega

theorem getLast?_three (a b c : Nat) : ([a, b, c] : List Nat).getLast? = some c := rfl

theorem dropLast_three (a b c : Nat) : ([a, b, c] : List Nat).dropLast = [a, b] := rfl

/-- C1: the claim says `checksum` is the 8-bit wrapping sum (mod 256) of the
bytes, but the source computes `s % 255` on the wrapped `u8` sum. On the
single-byte sequence `[0xFF]` the code yields `0` while the 8-bit wrapping
sum is `255`: the `% 255` in the source is a slip for mod-256 wrapping (the
in-code comment even calls the final modulo a free no-op, which is false
exactly here). -/
theorem checksum_mod255_bug :
    checksum [0xFF] = 0 ∧ ([0xFF] : List Nat).sum % 256 = 255 := by
  constructor
  · rfl
  · rfl

/-- C2: each wire command encoder produces exactly the fixed byte table from
the spec (checksum byte not included): PowerOn, PowerOff, VolumeUp,
VolumeDown, MuteToggle and QueryPower. -/
theorem encode_table :
    power_on_args = [0x8C, 0x00, 0x00, 0x02, 0x01] ∧
    power_off_args = [0x8C, 0x00, 0x00, 0x02, 0x00] ∧
    volume_up_args = [0x8C, 0x00, 0x05, 0x03, 0x00, 0x00] ∧
    volume_down_args = [0x8C, 0x00, 0x05, 0x03, 0x00, 0x01] ∧
    mute_toggle_args = [0x8C, 0x00, 0x06, 0x02, 0x00] ∧
    query_power_args = [0x83, 0x00, 0x00, 0xFF, 0xFF] := by
  refine ⟨rfl, rfl, rfl, rfl, rfl, rfl⟩

/-- C3 counterexample: the claim says an empty QueryPower payload decodes to
"device is off", but `is_powered_on` indexes `data[0]`, which panics on an
empty `Vec`; decoding the empty payload does not yield "off". -/
theorem decode_empty_not_off : is_powered_on_decode [] ≠ some false := by
  simp [is_powered_on_decode]

/-- C3 amended: a payload whose first byte is 1 decodes to "on", a nonempty
payload whose first byte is not 1 decodes to "off", and an empty payload
makes `is_powered_on` panic (index out of bounds) instead of decoding. -/
theorem decode_power_state :
    is_powered_on_decode [] = none ∧
    (∀ rest : List Nat, is_powered_on_decode (1 :: rest) = some true) ∧
    (∀ (b : Nat) (rest : List Nat), b ≠ 1 →
      is_powered_on_decode (b :: rest) = some false) := by
  refine ⟨rfl, fun rest => rfl, fun b rest hb => ?_⟩
  simp [is_powered_on_decode, hb]

theorem decode_power_state_witness : is_powered_on_decode [0] = some false :=
  decode_power_state.2.2 0 [] (by decide)

theorem write_command_query_eq (contents : List Nat)
    (r1 r2 : Except Unit (List Nat)) (hdr dataBuf : List Nat)
    (hq : (frame contents).getD 0 0 = QUERY_REQUEST)
    (h1 : readInto 3 r1 = Except.ok hdr)
    (hh : hdr.getD 0 0 = RESPONSE_HEADER)
    (ha : hdr.getD 1 0 = RESPONSE_ANSWER)
    (h2 : readInto (hdr.getD 2 0) r2 = Except.ok dataBuf) :
    write_command contents r1 r2 =
      match dataBuf.getLast? with
      | none => Except.error Err.emptyResponse
      | some c =>
          if c = checksum (hdr ++ dataBuf.dropLast) then Except.ok dataBuf.dropLast
          else Except.error Err.invalidResponseChecksum := by
  simp only [List.getD_eq_getElem?_getD] at hq hh ha h2
  simp [write_command, h1, hq, hh, ha, h2]

theorem write_command_control_eq (contents : List Nat)
    (r1 r2 : Except Unit (List Nat)) (hdr : List Nat)
    (hc : (frame contents).getD 0 0 ≠ QUERY_REQUEST)
    (h1 : readInto 3 r1 = Except.ok hdr)
    (hh : hdr.getD 0 0 = RESPONSE_HEADER)
    (ha : hdr.getD 1 0 = RESPONSE_ANSWER) :
    write_command contents r1 r2 =
      match hdr.getLast? with
      | none => Except.error Err.emptyResponse
      | some c =>
          if c = checksum hdr.dropLast then Except.ok []
          else Except.error Err.invalidResponseChecksum := by
  simp only [List.getD_eq_getElem?_getD] at hc hh ha
  simp [write_command, h1, hc, hh, ha]

theorem checksum_le_254 (l : List Nat) : checksum l ≤ 254 := by
  unfold checksum
  omega

/-- C4: on the query path, once the header has passed its checks and the data
read has completed, `write_command` pops the last byte of the data buffer as
the received checksum (failing with `emptyResponse` when the buffer is empty),
compares it with the checksum of the 3-byte header concatenated with the
remaining payload, fails with `invalidResponseChecksum` on mismatch returning
no payload, and on match returns the payload without the checksum byte. -/
theorem query_checksum_validation (contents : List Nat)
    (r1 r2 : Except Unit (List Nat)) (hdr dataBuf : List Nat)
    (hq : (frame contents).getD 0 0 = QUERY_REQUEST)
    (h1 : readInto 3 r1 = Except.ok hdr)
    (hh : hdr.getD 0 0 = RESPONSE_HEADER)
    (ha : hdr.getD 1 0 = RESPONSE_ANSWER)
    (h2 : readInto (hdr.getD 2 0) r2 = Except.ok dataBuf) :
    write_command contents r1 r2 =
      match dataBuf.getLast? with
      | none => Except.error Err.emptyResponse
      | some c =>
          if c = checksum (hdr ++ dataBuf.dropLast) then Except.ok dataBuf.dropLast
          else Except.error Err.invalidResponseChecksum :=
  write_command_query_eq contents r1 r2 hdr dataBuf hq h1 hh ha h2

theorem query_checksum_validation_witness :
    write_command query_power_args (Except.ok [0x70, 0x00, 0x02])
      (Except.ok [1, 115]) = Except.ok [1] := by
  have h := query_checksum_validation query_power_args
    (Except.ok [0x70, 0x00, 0x02]) (Except.ok [1, 115])
    [0x70, 0x00, 0x02] [1, 115] (by decide) rfl (by decide) (by decide) rfl
  simpa using h

/-- C5: whenever the 3-byte header read completes with a first byte different
from 0x70, `write_command` fails with `unexpectedResponseHeader`, and the
result is the same for every possible further channel content `r2`: no payload
bytes are read after the rejected header. -/
theorem bad_header_rejected (contents : List Nat) (r1 : Except Unit (List Nat))
    (hdr : List Nat) (h1 : readInto 3 r1 = Except.ok hdr)
    (hh : hdr.getD 0 0 ≠ RESPONSE_HEADER) :
    ∀ r2 : Except Unit (List Nat),
      write_command contents r1 r2 = Except.error Err.unexpectedResponseHeader := by
  intro r2
  simp only [List.getD_eq_getElem?_getD] at hh
  simp [write_command, h1, hh]

theorem bad_header_rejected_witness :
    write_command power_on_args (Except.ok [0x71, 0x00, 0x00])
      (Except.ok []) = Except.error Err.unexpectedResponseHeader :=
  bad_header_rejected power_on_args (Except.ok [0x71, 0x00, 0x00])
    [0x71, 0x00, 0x00] rfl (by decide) (Except.ok [])

/-- C6: when the QueryPower transaction inside `power_toggle` succeeds with a
nonempty payload, the event trace is: the query frame is written first; then,
if the payload decodes to "on" (first byte 1), the status line
"is on - turning off!" is printed and the PowerOff control frame is written,
and if it decodes to "off", "is off - turning on!" is printed and the PowerOn
control frame is written; the status line always precedes the resolved
command's write. -/
theorem power_toggle_resolution (r1 r2 r3 r4 : Except Unit (List Nat))
    (b : Nat) (rest : List Nat)
    (h : write_command query_power_args r1 r2 = Except.ok (b :: rest)) :
    (power_toggle_model r1 r2 r3 r4).1 =
      if b = 1 then
        [Ev.writeBytes (frame query_power_args),
         Ev.printLine "is on - turning off!",
         Ev.writeBytes (frame power_off_args)]
      else
        [Ev.writeBytes (frame query_power_args),
         Ev.printLine "is off - turning on!",
         Ev.writeBytes (frame power_on_args)] := by
  by_cases hb : b = 1
  · simp [power_toggle_model, is_powered_on_model, h, is_powered_on_decode, hb]
  · simp [power_toggle_model, is_powered_on_model, h, is_powered_on_decode, hb]

theorem power_toggle_resolution_witness :
    (power_toggle_model (Except.ok [0x70, 0x00, 0x02]) (Except.ok [1, 115])
        (Except.ok []) (Except.ok [])).1 =
      [Ev.writeBytes (frame query_power_args),
       Ev.printLine "is on - turning off!",
       Ev.writeBytes (frame power_off_args)] := by
  have h := power_toggle_resolution (Except.ok [0x70, 0x00, 0x02])
    (Except.ok [1, 115]) (Except.ok []) (Except.ok []) 1 [] rfl
  simpa using h

/-- C7: the claim says the executor reads exactly 3 header bytes and exactly
`header[2]` payload bytes, a shorter read not counting as completing those
steps; but the code issues single `read` calls and ignores the returned
count. First conjunct: a query whose header announces 2 data bytes but whose
data read delivers only one byte (0x8E) still completes successfully,
returning payload [0x8E] whose checksum byte was never received (the zero
fill of the buffer happens to match the checksum). Second conjunct: a header
read delivering only 1 of 3 bytes still passes both header checks and the
executor proceeds to issue the data read. -/
theorem short_read_accepted :
    write_command query_power_args (Except.ok [0x70, 0x00, 0x02])
        (Except.ok [0x8E]) = Except.ok [0x8E] ∧
    write_command query_power_args (Except.ok [0x70]) (Except.error ()) =
        Except.error Err.readResponseData := by
  constructor
  · rfl
  · rfl

/-- C8 counterexample: the claim says a token of the form `volume:<level>`
with level in 0-255 is accepted, but the dispatch in `main` has no such arm:
"volume:128" falls through to the catch-all and is rejected. -/
theorem volume_token_rejected : parse_action "volume:128" = none := by
  rfl

/-- C8 amended: the command-line surface recognizes exactly the tokens on,
off, power, volume-up, volume-down, mute and status; every other token,
including every `volume:<level>` form, is rejected before the core is
invoked. -/
theorem cli_tokens :
    parse_action "on" = some Action.on ∧
    parse_action "off" = some Action.off ∧
    parse_action "power" = some Action.power ∧
    parse_action "volume-up" = some Action.volumeUp ∧
    parse_action "volume-down" = some Action.volumeDown ∧
    parse_action "mute" = some Action.mute ∧
    parse_action "status" = some Action.status ∧
    ∀ s : String, parse_action s = none ∨
      s ∈ (["on", "off", "power", "volume-up", "volume-down", "mute",
            "status"] : List String) := by
  refine ⟨rfl, rfl, rfl, rfl, rfl, rfl, rfl, ?_⟩
  intro s
  unfold parse_action
  split_ifs with h1 h2 h3 h4 h5 h6 h7
  · right; simp [h1]
  · right; simp [h2]
  · right; simp [h3]
  · right; simp [h4]
  · right; simp [h5]
  · right; simp [h6]
  · right; simp [h7]
  · left; rfl

/-- C9: every Control transaction that returns successfully saw exactly the
header bytes [0x70, 0x00, 0x70]: the first two are forced by the header and
answer checks and the third must equal `checksum [0x70, 0x00] = 0x70`; the
returned payload is empty. -/
theorem control_success_header (contents : List Nat)
    (r1 r2 : Except Unit (List Nat)) (res : List Nat)
    (hc : (frame contents).getD 0 0 ≠ QUERY_REQUEST)
    (h : write_command contents r1 r2 = Except.ok res) :
    readInto 3 r1 = Except.ok [0x70, 0x00, 0x70] ∧ res = [] := by
  cases hr : readInto 3 r1 with
  | error e => simp [write_command, hr] at h
  | ok hdr =>
      have hlen := readInto_ok_length 3 r1 hdr hr
      rw [List.length_eq_three] at hlen
      obtain ⟨a, b, c, rfl⟩ := hlen
      by_cases ha : a = RESPONSE_HEADER
      · by_cases hb : b = RESPONSE_ANSWER
        · have heq := write_command_control_eq contents r1 r2 [a, b, c] hc hr ha hb
          simp only [heq, getLast?_three, dropLast_three] at h
          by_cases hcs : c = checksum [a, b]
          · rw [if_pos hcs] at h
            have hres : res = [] := by simpa using h.symm
            subst ha hb
            have hc112 : c = 112 := by
              simpa [checksum, RESPONSE_HEADER, RESPONSE_ANSWER] using hcs
            subst hc112
            refine ⟨?_, hres⟩
            simp [RESPONSE_HEADER, RESPONSE_ANSWER]
          · rw [if_neg hcs] at h
            simp at h
        · simp [write_command, hr, ha, hb] at h
      · simp [write_command, hr, ha] at h

theorem control_success_header_witness :
    readInto 3 (Except.ok ([0x70, 0x00, 0x70] : List Nat)) =
        Except.ok [0x70, 0x00, 0x70] ∧ ([] : List Nat) = [] :=
  control_success_header power_on_args (Except.ok [0x70, 0x00, 0x70])
    (Except.ok []) [] (by decide) rfl

/-- C10: the checksum never exceeds 254 (so it is never 0xFF), and therefore
any completed inbound frame whose trailing byte is 0xFF fails checksum
validation with `invalidResponseChecksum`, on the query path (trailing byte
of the data buffer) as well as on the control path (third header byte). -/
theorem checksum_never_255 (l contents hdr dataBuf : List Nat)
    (r1 r2 : Except Unit (List Nat)) :
    checksum l ≤ 254 ∧
    ((frame contents).getD 0 0 = QUERY_REQUEST →
      readInto 3 r1 = Except.ok hdr →
      hdr.getD 0 0 = RESPONSE_HEADER → hdr.getD 1 0 = RESPONSE_ANSWER →
      readInto (hdr.getD 2 0) r2 = Except.ok dataBuf →
      dataBuf.getLast? = some 0xFF →
      write_command contents r1 r2 = Except.error Err.invalidResponseChecksum) ∧
    ((frame contents).getD 0 0 ≠ QUERY_REQUEST →
      readInto 3 r1 = Except.ok hdr →
      hdr.getD 0 0 = RESPONSE_HEADER → hdr.getD 1 0 = RESPONSE_ANSWER →
      hdr.getLast? = some 0xFF →
      write_command contents r1 r2 = Except.error Err.invalidResponseChecksum) := by
  refine ⟨checksum_le_254 l, ?_, ?_⟩
  · intro hq h1 hh ha h2 hL
    rw [write_command_query_eq contents r1 r2 hdr dataBuf hq h1 hh ha h2, hL]
    have hb := checksum_le_254 (hdr ++ dataBuf.dropLast)
    have hne : (255 : Nat) ≠ checksum (hdr ++ dataBuf.dropLast) := by omega
    simp [hne]
  · intro hc h1 hh ha hL
    rw [write_command_control_eq contents r1 r2 hdr hc h1 hh ha, hL]
    have hb := checksum_le_254 hdr.dropLast
    have hne : (255 : Nat) ≠ checksum hdr.dropLast := by omega
    simp [hne]

theorem checksum_never_255_witness :
    checksum [1, 2, 3] ≤ 254 ∧
    write_command query_power_args (Except.ok [0x70, 0x00, 0x01])
        (Except.ok [0xFF]) = Except.error Err.invalidResponseChecksum ∧
    write_command power_on_args (Except.ok [0x70, 0x00, 0xFF])
        (Except.ok []) = Except.error Err.invalidResponseChecksum := by
  have t1 := checksum_never_255 [1, 2, 3] query_power_args [0x70, 0x00, 0x01]
    [0xFF] (Except.ok [0x70, 0x00, 0x01]) (Except.ok [0xFF])
  have t2 := checksum_never_255 [1, 2, 3] power_on_args [0x70, 0x00, 0xFF]
    [] (Except.ok [0x70, 0x00, 0xFF]) (Except.ok [])
  exact ⟨t1.1, t1.2.1 (by decide) rfl (by decide) (by decide) rfl rfl,
    t2.2.2 (by decide) rfl (by decide) (by decide) rfl⟩

end Bravia
